import Mathlib

/-!
Verification of the evaluation subsystem of the MCP-File-Server repository.

The Python sources embedded here are:
* `src/tests/rag-evaluation/python/evaluation_service.py` (class `BasicRAGMetrics`),
* `src/tests/rag-evaluation/python/ragas_service.py` (batch and comparison endpoints),
* `src/tests/simple-ragas-test.py` (class `SimpleRAGASEvaluator`, `run_ragas_tests`),
* `src/tests/multimodal-evaluation/multimodal-ragas-service.py` (metric evaluators,
  the `/evaluate/multimodal` and `/evaluate/batch` endpoints),
* `src/tests/comprehensive-phase2-test.py` (`TEST_CONFIG`, `test_quality_gates`).

Python floats on the pure lexical-metric paths are modelled as rationals `ℚ`;
the cosine-similarity path, which involves square roots, is modelled over `ℝ`.
Python strings are modelled as Lean `String`, `str.lower()` as an ASCII
character map, and `str.split()` as whitespace tokenisation discarding empty
pieces, matching CPython for the ASCII inputs used throughout the repository.
-/

namespace RagEval

/-- ASCII lowercasing of a string, modelling Python `str.lower()` on the ASCII
strings used by the evaluation scripts (`Char.toLower` lowers exactly `A`-`Z`). -/
def lowerString (s : String) : String := ⟨s.data.map Char.toLower⟩

/-- Accumulator-style whitespace tokeniser over a character list: splits on runs
of whitespace and never yields an empty token, modelling Python `str.split()`
with no arguments. -/
def tokensAux : List Char → List Char → List String
  | [], acc => if acc.isEmpty then [] else [⟨acc.reverse⟩]
  | c :: rest, acc =>
    if c.isWhitespace then
      if acc.isEmpty then tokensAux rest [] else (⟨acc.reverse⟩ : String) :: tokensAux rest []
    else tokensAux rest (c :: acc)

/-- Whitespace tokens of a string, modelling Python `s.split()`. -/
def strTokens (s : String) : List String := tokensAux s.data []

/-- The set of lower-cased whitespace tokens of a string, modelling Python
`set(s.lower().split())`. -/
def wordSet (s : String) : Finset String := (strTokens (lowerString s)).toFinset

/-- Substring test on character lists: `infixOf needle hay` holds when `needle`
occurs contiguously in `hay` (the empty needle always occurs), modelling the
Python `needle in hay` test on strings. -/
def infixOf (needle : List Char) : List Char → Bool
  | [] => needle.isEmpty
  | c :: rest => needle.isPrefixOf (c :: rest) || infixOf needle rest

/-- Python substring containment `needle in hay` on strings. -/
def strContains (hay needle : String) : Bool := infixOf needle.data hay.data

/-- Arithmetic mean of a list of rationals, modelling `numpy.mean`
(`0` for the empty list never arises on the paths proved below). -/
def listMean (l : List ℚ) : ℚ := l.sum / l.length

/-- Population variance of a list of rationals, modelling `numpy.var`. -/
def listVar (l : List ℚ) : ℚ := (l.map (fun x => (x - listMean l) ^ 2)).sum / l.length

/-- Python `dict.get(key, default)` over an association-list threshold table. -/
def threshLookup (tbl : List (String × ℚ)) (key : String) (dflt : ℚ) : ℚ :=
  (tbl.lookup key).getD dflt

/-!
## Metric Library: text metrics

From `BasicRAGMetrics` in `evaluation_service.py`, whose bodies coincide with
`SimpleRAGASEvaluator` in `simple-ragas-test.py`, and from
`SimpleRAGASEvaluator.calculate_faithfulness`.
-/

/-- `BasicRAGMetrics.calculate_answer_completeness` (`evaluation_service.py`,
also `simple-ragas-test.py`).  Returns `none` exactly where Python raises
`ZeroDivisionError`: a non-empty query whose token set is empty (whitespace-only
query).  Otherwise averages query-token coverage of the answer with the capped
length factor `min(len(answer.split())/20, 1.0)`. -/
def calculate_answer_completeness (query answer : String) : Option ℚ :=
  if query = "" || answer = "" then some 0
  else
    let query_words := wordSet query
    let answer_words := wordSet answer
    if query_words.card = 0 then none
    else
      let coverage : ℚ := ((query_words ∩ answer_words).card : ℚ) / (query_words.card : ℚ)
      let length_factor : ℚ := min (((strTokens answer).length : ℚ) / 20) 1
      some ((coverage + length_factor) / 2)

/-- Vocabulary of a context list: the token set of the lower-cased
space-concatenation of the contexts, modelling
`set(" ".join(contexts).lower().split())` in `calculate_faithfulness`. -/
def contextVocab (contexts : List String) : Finset String :=
  (strTokens (lowerString (String.intercalate " " contexts))).toFinset

/-- `SimpleRAGASEvaluator.calculate_faithfulness` (`simple-ragas-test.py`):
fraction of distinct answer tokens grounded in the concatenated context text,
`0.0` on empty contexts, empty answer, or empty context vocabulary, capped at
`1.0`. -/
def calculate_faithfulness (contexts : List String) (answer : String) : ℚ :=
  if contexts = [] || answer = "" then 0
  else
    let answer_words := wordSet answer
    let context_words := contextVocab contexts
    if context_words.card = 0 then 0
    else
      let f : ℚ :=
        if answer_words.card = 0 then 0
        else ((answer_words ∩ context_words).card : ℚ) / (answer_words.card : ℚ)
      min f 1

/-!
## Metric Library: search metrics

From `SearchQualityEvaluator.evaluate_result_diversity` and the module-level
`evaluate_ranking_quality` in `multimodal-ragas-service.py`.
-/

/-- A search result as consumed by the diversity and ranking metrics.  The
Python code reads `result["metadata"]["document_id" | "content_type" |
"page_number"]` and `result["score"]` through `.get` calls; the metadata
mapping is flattened here and `none` models a missing key, with the Python
defaults (`""`, `"text"`, `1`, `0.5`) applied at the use sites below. -/
structure SearchResult where
  document_id : Option String
  content_type : Option String
  page_number : Option ℤ
  score : Option ℚ
deriving DecidableEq

/-- `SearchQualityEvaluator.evaluate_result_diversity`
(`multimodal-ragas-service.py`): `1.0` for fewer than two results, otherwise
the average of unique-document fraction, unique-content-type fraction
(normalised by 3) and unique-page fraction (normalised by 5). -/
def evaluate_result_diversity (results : List SearchResult) : ℚ :=
  if results.length < 2 then 1
  else
    let doc_ids := results.map (fun r => r.document_id.getD "")
    let doc_diversity : ℚ := (doc_ids.dedup.length : ℚ) / (results.length : ℚ)
    let content_types := results.map (fun r => r.content_type.getD "text")
    let type_diversity : ℚ := min ((content_types.dedup.length : ℚ) / 3) 1
    let pages := results.map (fun r => r.page_number.getD 1)
    let page_diversity : ℚ := min ((pages.dedup.length : ℚ) / 5) 1
    (doc_diversity + type_diversity + page_diversity) / 3

/-- Checks that a score list is non-increasing, modelling
`all(scores[i] >= scores[i+1] for i in range(len(scores)-1))`. -/
def scoresDescending : List ℚ → Bool
  | [] => true
  | [_] => true
  | a :: b :: t => decide (b ≤ a) && scoresDescending (b :: t)

/-- Module-level `evaluate_ranking_quality` (`multimodal-ragas-service.py`):
`0.0` on an empty result list, otherwise the average of a sortedness score
(`1.0` if non-increasing else `0.5`) and a variance score
(`min(var*2, 1.0)` for at least two scores, else `0.5`). -/
def evaluate_ranking_quality (results : List SearchResult) : ℚ :=
  if results.isEmpty then 0
  else
    let scores := results.map (fun r => r.score.getD (1/2))
    let sorting_score : ℚ := if scoresDescending scores then 1 else 1/2
    let variance_score : ℚ := if 1 < scores.length then min (listVar scores * 2) 1 else 1/2
    (sorting_score + variance_score) / 2

/-!
## Metric Library: multimodal metrics

From `MultimodalQualityEvaluator` in `multimodal-ragas-service.py`.
-/

/-- An image descriptor as consumed by the multimodal metrics: the Python code
reads the keys `image_path`, `extracted_text` and `caption` through `.get`;
`none` models a missing key. -/
structure ImageDesc where
  image_path : Option String
  extracted_text : Option String
  caption : Option String
deriving DecidableEq

/-- The eight visual-reference keywords of `evaluate_visual_grounding`. -/
def visualKeywords : List String :=
  ["figure", "image", "chart", "graph", "diagram", "illustration", "shown", "depicted"]

/-- Tests `any(keyword in answer.lower() for keyword in visual_keywords)`:
substring containment of some keyword in the lower-cased answer. -/
def answerHasVisualKeyword (answer : String) : Bool :=
  visualKeywords.any (fun kw => strContains (lowerString answer) kw)

/-- The amount one image adds to `visual_references` in the loop body of
`evaluate_visual_grounding`: `1` if some visual keyword occurs in the
lower-cased answer, plus `0.5` if the image has non-empty extracted text one of
whose first ten lower-cased tokens occurs as a substring of the lower-cased
answer. -/
def imageContribution (answer : String) (img : ImageDesc) : ℚ :=
  (if answerHasVisualKeyword answer then 1 else 0) +
    (match img.extracted_text with
     | none => 0
     | some t =>
       if t = "" then 0
       else if ((strTokens (lowerString t)).take 10).any
           (fun w => strContains (lowerString answer) w) then 1/2 else 0)

/-- `MultimodalQualityEvaluator.evaluate_visual_grounding`
(`multimodal-ragas-service.py`): `1.0` with no images, otherwise the
accumulated `visual_references` divided by the image count, capped at `1.0`. -/
def evaluate_visual_grounding (answer : String) (images : List ImageDesc) : ℚ :=
  if images.isEmpty then 1
  else
    let vr := images.foldl (fun acc img => acc + imageContribution answer img) 0
    min (vr / (images.length : ℚ)) 1

/-- Modelled from the spec claim wording for `visual_grounding`: an image is
"reflected" when a visual keyword occurs in the answer or when the answer and
the image's extracted text lexically overlap (share a token). -/
def claimImageReflected (answer : String) (img : ImageDesc) : Bool :=
  answerHasVisualKeyword answer ||
    (match img.extracted_text with
     | none => false
     | some t => decide (0 < (wordSet answer ∩ wordSet t).card))

/-- Modelled from the spec claim wording for `visual_grounding`: the fraction
of images reflected by the answer, each image contributing at most `1.0`,
normalised by the image count, and `1.0` with no images. -/
def claimVisualGrounding (answer : String) (images : List ImageDesc) : ℚ :=
  if images.isEmpty then 1
  else ((images.filter (claimImageReflected answer)).length : ℚ) / (images.length : ℚ)

/-- A cross-modal pair as consumed by `evaluate_cross_modal_consistency`; the
Python code reads the keys `relationship_type` and `confidence` through `.get`
(defaulting the confidence to `0.5`); `none` models a missing key. -/
structure CrossModalPair where
  relationship_type : Option String
  confidence : Option ℚ
deriving DecidableEq

/-- The per-pair score appended to `consistency_scores` in
`evaluate_cross_modal_consistency`: confidence (default `0.5`) times `1.2` for
`caption`, `1.0` for `reference`, `0.8` otherwise, capped at `1.0`. -/
def pairConsistencyScore (p : CrossModalPair) : ℚ :=
  let c := p.confidence.getD (1/2)
  let w : ℚ :=
    if p.relationship_type = some "caption" then 6/5
    else if p.relationship_type = some "reference" then 1
    else 4/5
  min (c * w) 1

/-- `MultimodalQualityEvaluator.evaluate_cross_modal_consistency`
(`multimodal-ragas-service.py`): `1.0` with no pairs, otherwise the mean of the
per-pair scores (the trailing `0.5` default branch is unreachable because the
score list is non-empty exactly when the pair list is). -/
def evaluate_cross_modal_consistency (pairs : List CrossModalPair) : ℚ :=
  if pairs.isEmpty then 1
  else
    let consistency_scores := pairs.map pairConsistencyScore
    if consistency_scores.isEmpty then 1/2 else listMean consistency_scores

/-- Modelled from the spec claim wording for `cross_modal_consistency`: the
per-pair value `min(confidence * w, 1.0)` with `w` determined by the
relationship type (`caption` 1.2, `reference` 1.0, otherwise 0.8). -/
def claimPairScore (c : ℚ) (rel : String) : ℚ :=
  min (c * (if rel = "caption" then 6/5 else if rel = "reference" then 1 else 4/5)) 1

/-- `MultimodalQualityEvaluator.evaluate_content_coverage`
(`multimodal-ragas-service.py`): fraction of content elements covered by the
answer (a context counts `1` when sharing more than 3 tokens with the answer,
an image with extracted text counts `0.5` when sharing more than 1 token),
normalised by the total element count and capped at `1.0`; `1.0` with no
content. -/
def evaluate_content_coverage (answer : String) (contexts : List String)
    (images : List ImageDesc) : ℚ :=
  let total := contexts.length + images.length
  if total = 0 then 1
  else
    let answer_words := wordSet answer
    let coveredCtx : ℕ :=
      (contexts.filter (fun c => 3 < (answer_words ∩ wordSet c).card)).length
    let coveredImg : ℕ :=
      (images.filter (fun img =>
        match img.extracted_text with
        | none => false
        | some t => decide (1 < (answer_words ∩ wordSet t).card))).length
    min (((coveredCtx : ℚ) + (coveredImg : ℚ) / 2) / (total : ℚ)) 1

/-!
## Similarity Gateway: cosine similarity and image relevance

From `MultimodalQualityEvaluator.cosine_similarity` and
`evaluate_image_relevance` in `multimodal-ragas-service.py`.  Vector arithmetic
is modelled over `ℝ`.  `numpy` raises a `ValueError` on a shape mismatch in
`np.dot` and produces `NaN` for the `0.0/0.0` arising from a zero vector; both
failures of returning an ordinary number are modelled as `none`.
-/

section
open Classical

/-- `np.dot(v1, v2)` for equal-length one-dimensional arrays. -/
def dotL (v w : List ℝ) : ℝ := (List.zipWith (fun a b => a * b) v w).sum

/-- `np.linalg.norm(v)`, the Euclidean norm. -/
noncomputable def normL (v : List ℝ) : ℝ := Real.sqrt (dotL v v)

/-- `MultimodalQualityEvaluator.cosine_similarity`
(`multimodal-ragas-service.py`): `np.dot(v1, v2) / (norm(v1) * norm(v2))`.
`none` models the two non-numeric outcomes of the Python expression: the
`ValueError` raised by `np.dot` on a length mismatch and the `NaN` produced by
division when a norm is zero. -/
noncomputable def cosine_similarity (v w : List ℝ) : Option ℝ :=
  if v.length ≠ w.length then none
  else if normL v * normL w = 0 then none
  else some (dotL v w / (normL v * normL w))

/-- Outcome of one `requests.post` call to the embedding provider:
either the call raises (connection error or timeout) or it returns a response
with a status code and an embedding payload. -/
inductive EmbedOutcome where
  | raised : EmbedOutcome
  | resp : Nat → List ℝ → EmbedOutcome
deriving Inhabited

/-- An embedding-provider call that fails: it raises, or responds with a
non-200 status. -/
def embedCallFails : EmbedOutcome → Prop
  | .raised => True
  | .resp st _ => st ≠ 200

/-- The image loop of `evaluate_image_relevance`: for each image with a truthy
`image_path`, posts to `/embed/image`; a raising call aborts the whole `try`
block (`Except.error`), a 200 response contributes a cosine similarity, any
other status is skipped. -/
noncomputable def relevanceScores (imgOut : String → EmbedOutcome) (qemb : List ℝ) :
    List ImageDesc → Except Unit (List (Option ℝ))
  | [] => .ok []
  | img :: rest =>
    match img.image_path with
    | none => relevanceScores imgOut qemb rest
    | some p =>
      if p = "" then relevanceScores imgOut qemb rest
      else
        match imgOut p with
        | .raised => .error ()
        | .resp st emb =>
          if st = 200 then
            match relevanceScores imgOut qemb rest with
            | .error e => .error e
            | .ok scores => .ok (cosine_similarity qemb emb :: scores)
          else relevanceScores imgOut qemb rest

/-- `np.mean` over a list of floats of which some may be `NaN` (`none`):
any `NaN` poisons the mean. -/
noncomputable def npMeanOpt (l : List (Option ℝ)) : Option ℝ :=
  if l.any (fun x => x.isNone) then none
  else some ((l.map (fun x => x.getD 0)).sum / (l.length : ℝ))

/-- `MultimodalQualityEvaluator.evaluate_image_relevance`
(`multimodal-ragas-service.py`).  The two provider calls are abstracted as
outcomes: `queryOut` for the `/embed/text` call on the query, `imgOut p` for
the `/embed/image` call on path `p`.  Returns `0.0` with no images, `0.5`
when the query call fails (raise or non-200) or any image call raises (the
surrounding `except` returns the neutral default), `0.0` when no image yields
a score, and otherwise the mean similarity (`none` models `NaN`). -/
noncomputable def evaluate_image_relevance (queryOut : EmbedOutcome)
    (imgOut : String → EmbedOutcome) (images : List ImageDesc) : Option ℝ :=
  if images.isEmpty then some 0
  else
    match queryOut with
    | .raised => some (1/2)
    | .resp st qemb =>
      if st ≠ 200 then some (1/2)
      else
        match relevanceScores imgOut qemb images with
        | .error _ => some (1/2)
        | .ok scores => if scores.isEmpty then some 0 else npMeanOpt scores

/-!
## Evaluation Orchestrator: the `/evaluate/multimodal` endpoint

From `evaluate_multimodal_response` in `multimodal-ragas-service.py`, together
with the pydantic result model `MultimodalEvaluationResult` and
`evaluate_multimodal_faithfulness` and `generate_multimodal_recommendations`.
-/

/-- A multimodal evaluation request (`MultimodalEvaluationRequest`). -/
structure MMRequest where
  query : String
  retrieved_contexts : List String
  retrieved_images : List ImageDesc
  generated_answer : String
  ground_truth : Option String
  cross_modal_pairs : List CrossModalPair
  evaluation_types : List String

/-- The fields of `MultimodalEvaluationResult` that the endpoint reads or
writes.  `image_relevance : Option ℝ` uses `none` for `NaN`. -/
structure MMResult where
  query : String
  ragas_metrics : List (String × ℚ)
  image_relevance : Option ℝ
  cross_modal_consistency : ℚ
  multimodal_faithfulness : ℝ
  visual_grounding : ℚ
  content_coverage : ℚ
  recommendations : List String
  evaluation_time : ℚ
  models_used : List String

/-- Construction of a `MultimodalEvaluationResult`.  In the pydantic model the
five metric fields `image_relevance`, `cross_modal_consistency`,
`multimodal_faithfulness`, `visual_grounding` and `content_coverage` are
declared as `Field(ge=0.0, le=1.0)` with no default value, so they are
required: constructing the model without them raises a `ValidationError`,
modelled by `Except.error`.  (The `ge`/`le` range validation of a supplied
value is not modelled; the endpoint's construction already fails on the
missing fields.)  An argument value `none` models an omitted field. -/
def mkMMResult (query : String) (evaluation_time : ℚ) (models_used : List String)
    (ir : Option (Option ℝ)) (cmc : Option ℚ) (mf : Option ℝ)
    (vg : Option ℚ) (cc : Option ℚ) : Except String MMResult :=
  match ir, cmc, mf, vg, cc with
  | some ir, some cmc, some mf, some vg, some cc =>
    .ok ⟨query, [], ir, cmc, mf, vg, cc, [], evaluation_time, models_used⟩
  | _, _, _, _, _ => .error "validation error: missing required metric fields"

/-- Outcome of the `requests.post` call to the RAGAS service in the
`text_quality` branch: raised, or a response with status and metric payload. -/
inductive SvcOutcome where
  | raised : SvcOutcome
  | resp : Nat → List (String × ℚ) → SvcOutcome

/-- The fallback metrics assigned when the RAGAS service call raises. -/
def defaultRagasMetrics : List (String × ℚ) :=
  [("basic_relevance", 1/2), ("context_utilization", 1/2), ("answer_completeness", 1/2)]

/-- Outcome of the sentence-transformer similarity computation inside
`evaluate_multimodal_faithfulness`: the encode calls raise, the model is not
loaded (`similarity_model is None`), or they produce a list of per-context
similarities. -/
inductive SimOutcome where
  | raised : SimOutcome
  | unavailable : SimOutcome
  | encoded : List ℝ → SimOutcome

/-- The context strings an image adds in `evaluate_multimodal_faithfulness`:
`"Image content: ..."` for truthy extracted text, then `"Image caption: ..."`
for a truthy caption. -/
def imageTexts (img : ImageDesc) : List String :=
  (match img.extracted_text with
   | some t => if t = "" then [] else ["Image content: " ++ t]
   | none => []) ++
  (match img.caption with
   | some c => if c = "" then [] else ["Image caption: " ++ c]
   | none => [])

/-- The combined context list of `evaluate_multimodal_faithfulness`. -/
def multimodalContexts (contexts : List String) (images : List ImageDesc) : List String :=
  contexts ++ images.flatMap imageTexts

/-- `MultimodalQualityEvaluator.evaluate_multimodal_faithfulness`
(`multimodal-ragas-service.py`): `0.0` when there is no combined context,
`0.5` when the similarity computation raises (including `np.max` on an empty
similarity list), `0.7` when the model is unavailable, otherwise the maximum
similarity. -/
noncomputable def evaluate_multimodal_faithfulness (simOut : SimOutcome) (contexts : List String)
    (images : List ImageDesc) : ℝ :=
  let all_contexts := multimodalContexts contexts images
  if all_contexts.isEmpty then 0
  else
    match simOut with
    | .raised => 1/2
    | .unavailable => 7/10
    | .encoded sims =>
      match sims with
      | [] => 1/2
      | x :: xs => xs.foldl max x

/-- `generate_multimodal_recommendations` (`multimodal-ragas-service.py`):
four fixed threshold rules.  A `NaN` image relevance (`none`) compares as
false, as in Python. -/
noncomputable def generate_multimodal_recommendations (r : MMResult) : List String :=
  (if (∃ v, r.image_relevance = some v ∧ v < 7/10) then
    ["Consider improving image relevance by using more targeted visual content"] else []) ++
  (if r.cross_modal_consistency < 3/5 then
    ["Improve text-image alignment and relationship identification"] else []) ++
  (if r.visual_grounding < 1/2 then
    ["Increase references to visual content in generated answers"] else []) ++
  (if threshLookup r.ragas_metrics "basic_relevance" 0 < 7/10 then
    ["Enhance text-based relevance through better keyword matching"] else [])

end

/-- The external collaborators of the `/evaluate/multimodal` endpoint. -/
structure MMExternals where
  ragasSvc : SvcOutcome
  queryEmbed : EmbedOutcome
  imageEmbed : String → EmbedOutcome
  simEncode : SimOutcome
  elapsed : ℚ

/-- The `/evaluate/multimodal` endpoint `evaluate_multimodal_response`
(`multimodal-ragas-service.py`).  Its first statement constructs
`MultimodalEvaluationResult(query=..., evaluation_time=0, models_used=[...])`
without the five required metric fields; the match on `mkMMResult` models the
pydantic validation of that call, and the `Except.ok` branch models the rest
of the handler body (metric dispatch, always-on diagnostics, recommendations,
timing).  The outer `Except.error` corresponds to the handler's
`except` clause raising `HTTPException(500, "Multimodal evaluation failed:
...")`. -/
noncomputable def evaluate_multimodal_response (ext : MMExternals) (req : MMRequest) :
    Except String MMResult :=
  match mkMMResult req.query 0 ["multimodal_ragas", "m_clip", "sentence_transformers"]
      none none none none none with
  | .error e => .error ("Multimodal evaluation failed: " ++ e)
  | .ok r0 =>
    let r1 :=
      if "text_quality" ∈ req.evaluation_types then
        { r0 with ragas_metrics :=
            (match ext.ragasSvc with
             | .raised => defaultRagasMetrics
             | .resp st ms => if st = 200 then ms else r0.ragas_metrics) }
      else r0
    let r2 :=
      if "image_relevance" ∈ req.evaluation_types then
        { r1 with image_relevance :=
            evaluate_image_relevance ext.queryEmbed ext.imageEmbed req.retrieved_images }
      else r1
    let r3 :=
      if "cross_modal_consistency" ∈ req.evaluation_types then
        { r2 with cross_modal_consistency :=
            evaluate_cross_modal_consistency req.cross_modal_pairs }
      else r2
    let r4 :=
      if "multimodal_faithfulness" ∈ req.evaluation_types then
        { r3 with multimodal_faithfulness :=
            (evaluate_multimodal_faithfulness ext.simEncode req.retrieved_contexts
              req.retrieved_images) }
      else r3
    let r5 := { r4 with visual_grounding :=
      evaluate_visual_grounding req.generated_answer req.retrieved_images }
    let r6 := { r5 with content_coverage :=
      (evaluate_content_coverage req.generated_answer req.retrieved_contexts
        req.retrieved_images) }
    let r7 := { r6 with recommendations := generate_multimodal_recommendations r6 }
    .ok { r7 with evaluation_time := ext.elapsed }

/-!
## Batch & Comparative Evaluator

From `batch_evaluate` in `multimodal-ragas-service.py` and
`batch_evaluate_ground_truth` and `compare_rag_systems` in `ragas_service.py`.
-/

/-- One element of the `results` list built by the `/evaluate/batch` loop:
the entry's index together with either its result or the string of the
exception caught by the per-entry `except` clause. -/
structure BatchEntry (α : Type) where
  index : ℕ
  outcome : Except String α

/-- The `enumerate` loop of `batch_evaluate`, carrying the running index. -/
def batchEvalGo {α β : Type} (ev : β → Except String α) : ℕ → List β → List (BatchEntry α)
  | _, [] => []
  | i, b :: bs => ⟨i, ev b⟩ :: batchEvalGo ev (i + 1) bs

/-- The `/evaluate/batch` endpoint `batch_evaluate`
(`multimodal-ragas-service.py`).  The per-entry work (reading the `type` key,
parsing the request model and dispatching to one of the three handlers — any
of which may raise) is abstracted as `ev`; the loop wraps each entry in
`try/except`, recording either the result or the error, and itself never
raises. -/
def batch_evaluate {α β : Type} (ev : β → Except String α) (items : List β) :
    List (BatchEntry α) :=
  batchEvalGo ev 0 items

/-- A ground-truth record as loaded from `default_qa.json`: each field models
the presence or absence of the corresponding JSON key. -/
structure GTRecord where
  question : Option String
  contexts : Option (List String)
  answer : Option String
  ground_truth : Option String
deriving DecidableEq

/-- One list comprehension `[item[key] for item in ground_truth_data]` of
`batch_evaluate_ground_truth`: the first record missing the key raises a
`KeyError`, modelled by `Except.error err`. -/
def extractAll {α : Type} (f : GTRecord → Option α) (err : String) :
    List GTRecord → Except String (List α)
  | [] => .ok []
  | r :: rs =>
    match f r with
    | none => .error err
    | some v =>
      match extractAll f err rs with
      | .error e => .error e
      | .ok vs => .ok (v :: vs)

/-- The `/batch-evaluate` endpoint `batch_evaluate_ground_truth`
(`ragas_service.py`).  After the emptiness check it extracts the four field
lists with one comprehension each (no per-entry error handling), then hands
the whole dataset to the remainder of the handler — LLM initialisation, the
external RAGAS `evaluate` call on the full dataset, and aggregation of its
output — abstracted as `tail`.  Any exception, including a `KeyError` from a
malformed record, is caught only by the outer `except`, which fails the whole
request with `HTTPException(500, "Batch evaluation failed: ...")`. -/
def batch_evaluate_ground_truth {α : Type}
    (tail : List String → List (List String) → List String → List String → Except String α)
    (gt : List GTRecord) : Except String α :=
  if gt.isEmpty then .error "Batch evaluation failed: Ground truth dataset is empty"
  else
    match extractAll (fun r => r.question) "KeyError: question" gt with
    | .error e => .error ("Batch evaluation failed: " ++ e)
    | .ok qs =>
      match extractAll (fun r => r.contexts) "KeyError: contexts" gt with
      | .error e => .error ("Batch evaluation failed: " ++ e)
      | .ok cs =>
        match extractAll (fun r => r.answer) "KeyError: answer" gt with
        | .error e => .error ("Batch evaluation failed: " ++ e)
        | .ok answers =>
          match extractAll (fun r => r.ground_truth) "KeyError: ground_truth" gt with
          | .error e => .error ("Batch evaluation failed: " ++ e)
          | .ok gts =>
            match tail qs cs answers gts with
            | .error e => .error ("Batch evaluation failed: " ++ e)
            | .ok out => .ok out

/-- One per-metric comparison record of `compare_rag_systems`
(`ragas_service.py`). -/
structure SystemComparison where
  system_a : ℚ
  system_b : ℚ
  difference : ℚ
  winner : String
deriving DecidableEq

/-- The comparison record for one metric: `difference = score_b - score_a`
and `winner = "System B" if score_b > score_a else "System A" if
score_a > score_b else "Tie"`. -/
def mkComparison (a b : ℚ) : SystemComparison :=
  ⟨a, b, b - a, if a < b then "System B" else if b < a then "System A" else "Tie"⟩

/-- The comparison table of `compare_rag_systems`, built from the per-metric
mean scores `(name, score_a, score_b)` of the two systems (the means of the
external RAGAS results). -/
def compare_rag_systems (l : List (String × ℚ × ℚ)) : List (String × SystemComparison) :=
  l.map (fun x => (x.1, mkComparison x.2.1 x.2.2))

/-- The comparison step of Python `max(items, key=lambda x:
abs(x[1]["difference"]))`: the current best is replaced only on a strictly
larger key, so the first maximal element is kept. -/
def maxStep (acc : Option (String × SystemComparison)) (x : String × SystemComparison) :
    Option (String × SystemComparison) :=
  match acc with
  | none => some x
  | some b => if |b.2.difference| < |x.2.difference| then some x else some b

/-- Python `max(items, key=lambda x: abs(x[1]["difference"]))` over the
comparison table; `none` on the empty list models the `ValueError` raised by
`max`. -/
def maxByAbsDiff (l : List (String × SystemComparison)) :
    Option (String × SystemComparison) :=
  l.foldl maxStep none

/-- The `overall_winner` field of the `/compare-systems` response: the winner
of the comparison entry with the largest absolute difference. -/
def overall_winner (l : List (String × ℚ × ℚ)) : Option String :=
  (maxByAbsDiff (compare_rag_systems l)).map (fun e => e.2.winner)

/-!
## Quality Gate Engine

From `TEST_CONFIG` and `test_quality_gates` in `comprehensive-phase2-test.py`.
-/

/-- The `quality_thresholds` table of `TEST_CONFIG`
(`comprehensive-phase2-test.py`). -/
def testConfigQualityThresholds : List (String × ℚ) :=
  [("embedding_similarity", 7/10), ("extraction_completeness", 4/5),
   ("search_precision", 3/5), ("overall_quality", 3/4),
   ("ragas_faithfulness", 7/10), ("ragas_answer_relevancy", 7/10),
   ("ragas_context_precision", 7/10)]

/-- The `mock_ragas_scores` of `test_quality_gates`. -/
def mockRagasScores : List (String × ℚ) :=
  [("faithfulness", 39/50), ("answer_relevancy", 41/50),
   ("context_precision", 3/4), ("context_recall", 79/100)]

/-- The per-metric gate of `test_quality_gates`: `passed` iff the score is at
least `quality_thresholds.get("ragas_" + metric_name, 0.7)`. -/
def ragasMetricGate (tbl : List (String × ℚ)) (name : String) (score : ℚ) : Bool :=
  decide (threshLookup tbl ("ragas_" ++ name) (7/10) ≤ score)

/-- The overall gate of `test_quality_gates`: `passed` iff the mean of the
metric scores is at least `quality_thresholds["overall_quality"]`; `none`
models the `KeyError` of the direct index when that key is absent. -/
def overallQualityGate (tbl : List (String × ℚ)) (scores : List ℚ) : Option Bool :=
  (tbl.lookup "overall_quality").map (fun t => decide (t ≤ listMean scores))

/-!
## Helper lemmas
-/

/-- A quotient of two natural-number casts is nonnegative. -/
lemma natDiv_nonneg (a b : ℕ) : 0 ≤ (a : ℚ) / (b : ℚ) := by positivity

/-- A quotient of two natural-number casts is at most one when the numerator is
at most the denominator (including the degenerate zero denominator). -/
lemma natDiv_le_one {a b : ℕ} (h : a ≤ b) : (a : ℚ) / (b : ℚ) ≤ 1 := by
  rcases Nat.eq_zero_or_pos b with hb | hb
  · subst hb
    simp
  · exact (div_le_one (by exact_mod_cast hb)).2 (by exact_mod_cast h)

/-- The population variance of a score list is nonnegative. -/
lemma listVar_nonneg (l : List ℚ) : 0 ≤ listVar l := by
  unfold listVar
  apply div_nonneg
  · apply List.sum_nonneg
    intro x hx
    rcases List.mem_map.1 hx with ⟨y, _, rfl⟩
    positivity
  · positivity

/-- A capped value `min x 1` is in the unit interval once `x` is nonnegative. -/
lemma min_one_mem_unit {x : ℚ} (hx : 0 ≤ x) : 0 ≤ min x 1 ∧ min x 1 ≤ 1 :=
  ⟨le_min hx zero_le_one, min_le_right x 1⟩

/-!
## C1
-/

/-- C1: for well-typed inputs, the metric values are in the unit interval: every
value returned by `calculate_answer_completeness` lies in `[0, 1]`, and
`evaluate_result_diversity` and `evaluate_ranking_quality` return a value in
`[0, 1]` on every result list. -/
theorem metric_values_in_unit_interval :
    (∀ query answer v, calculate_answer_completeness query answer = some v →
      0 ≤ v ∧ v ≤ 1) ∧
    (∀ results : List SearchResult,
      0 ≤ evaluate_result_diversity results ∧ evaluate_result_diversity results ≤ 1) ∧
    (∀ results : List SearchResult,
      0 ≤ evaluate_ranking_quality results ∧ evaluate_ranking_quality results ≤ 1) := by
  refine ⟨?_, ?_, ?_⟩
  · intro query answer v h
    simp only [calculate_answer_completeness] at h
    split_ifs at h with h1 h2
    · rw [Option.some.injEq] at h
      subst h
      norm_num
    · rw [Option.some.injEq] at h
      subst h
      have hcov0 : (0 : ℚ) ≤ ((wordSet query ∩ wordSet answer).card : ℚ) /
          ((wordSet query).card : ℚ) := natDiv_nonneg _ _
      have hcov1 : ((wordSet query ∩ wordSet answer).card : ℚ) /
          ((wordSet query).card : ℚ) ≤ 1 :=
        natDiv_le_one (Finset.card_le_card Finset.inter_subset_left)
      have hlf := min_one_mem_unit (natDiv_nonneg (strTokens answer).length 20)
      refine ⟨by linarith [hlf.1], ?_⟩
      rw [div_le_one (by norm_num)]
      linarith [hlf.2]
  · intro results
    simp only [evaluate_result_diversity]
    split_ifs with h
    · norm_num
    · have hlen : 2 ≤ results.length := by omega
      have hd0 : (0 : ℚ) ≤ ((results.map (fun r => r.document_id.getD "")).dedup.length : ℚ) /
          (results.length : ℚ) := natDiv_nonneg _ _
      have hd1 : ((results.map (fun r => r.document_id.getD "")).dedup.length : ℚ) /
          (results.length : ℚ) ≤ 1 := by
        apply natDiv_le_one
        calc (results.map (fun r => r.document_id.getD "")).dedup.length
            ≤ (results.map (fun r => r.document_id.getD "")).length :=
              (List.dedup_sublist _).length_le
          _ = results.length := List.length_map _ _
      have ht := min_one_mem_unit
        (x := (((results.map (fun r => r.content_type.getD "text")).dedup.length : ℚ)) / 3)
        (natDiv_nonneg _ 3)
      have hp := min_one_mem_unit
        (x := (((results.map (fun r => r.page_number.getD 1)).dedup.length : ℚ)) / 5)
        (natDiv_nonneg _ 5)
      constructor
      · have := ht.1
        have := hp.1
        positivity
      · rw [div_le_one (by norm_num)]
        linarith [ht.2, hp.2]
  · intro results
    simp only [evaluate_ranking_quality]
    split_ifs with h hd hv hv
    · norm_num
    · have hm := min_one_mem_unit
        (mul_nonneg (listVar_nonneg (results.map (fun r => r.score.getD (1/2))))
          (by norm_num : (0:ℚ) ≤ 2))
      refine ⟨by linarith [hm.1], ?_⟩
      rw [div_le_one (by norm_num)]
      linarith [hm.2]
    · norm_num
    · have hm := min_one_mem_unit
        (mul_nonneg (listVar_nonneg (results.map (fun r => r.score.getD (1/2))))
          (by norm_num : (0:ℚ) ≤ 2))
      refine ⟨by linarith [hm.1], ?_⟩
      rw [div_le_one (by norm_num)]
      linarith [hm.2]
    · norm_num

/-- Witness for C1: the theorem applied at the concrete query `"a"` and answer
`"a"`, whose completeness value is `21/40`. -/
theorem metric_values_in_unit_interval_witness : 0 ≤ (21/40 : ℚ) ∧ (21/40 : ℚ) ≤ 1 := by
  apply metric_values_in_unit_interval.1 "a" "a"
  rw [calculate_answer_completeness]
  rw [if_neg (by decide)]
  have h1 : (wordSet "a").card = 1 := by decide
  have h2 : (wordSet "a" ∩ wordSet "a").card = 1 := by decide
  have h3 : (strTokens "a").length = 1 := by decide
  simp only [h1, h2, h3]
  norm_num

/-!
## C2
-/

/-- On non-empty contexts and a non-empty answer string, `calculate_faithfulness`
is exactly the grounded fraction of the answer's (distinct, lower-cased) tokens;
the degenerate branches of the code agree with the convention that a quotient
with zero denominator is `0`. -/
lemma faithfulness_eq_fraction (contexts : List String) (answer : String)
    (h1 : contexts ≠ []) (h2 : answer ≠ "") :
    calculate_faithfulness contexts answer =
      ((wordSet answer ∩ contextVocab contexts).card : ℚ) / ((wordSet answer).card : ℚ) := by
  simp only [calculate_faithfulness]
  split_ifs with hA hB hC
  · simp [h1, h2] at hA
  · rw [Finset.card_eq_zero] at hB
    rw [hB]
    simp
  · rw [Finset.card_eq_zero] at hC
    rw [hC]
    simp
  · exact min_eq_left (natDiv_le_one (Finset.card_le_card Finset.inter_subset_left))

/-- C2: for non-empty contexts and a non-empty answer, faithfulness equals the
fraction of the answer's lower-cased tokens occurring in the concatenated
context text; it is exactly `1` when the answer has at least one token and
every answer token occurs in the contexts' vocabulary; and it is `0` when the
contexts or the answer are empty. -/
theorem faithfulness_matches_spec :
    (∀ contexts answer, contexts ≠ [] → answer ≠ "" →
      calculate_faithfulness contexts answer =
        ((wordSet answer ∩ contextVocab contexts).card : ℚ) / ((wordSet answer).card : ℚ)) ∧
    (∀ contexts answer, contexts ≠ [] → strTokens (lowerString answer) ≠ [] →
      (∀ t ∈ wordSet answer, t ∈ contextVocab contexts) →
      calculate_faithfulness contexts answer = 1) ∧
    (∀ contexts answer, contexts = [] ∨ answer = "" →
      calculate_faithfulness contexts answer = 0) := by
  refine ⟨faithfulness_eq_fraction, ?_, ?_⟩
  · intro contexts answer h1 hne hsub
    have h2 : answer ≠ "" := by
      intro he
      subst he
      exact hne rfl
    have hcard : ((wordSet answer).card : ℚ) ≠ 0 := by
      rw [Ne, Nat.cast_eq_zero, Finset.card_eq_zero]
      rw [wordSet, List.toFinset_eq_empty_iff]
      exact hne
    rw [faithfulness_eq_fraction contexts answer h1 h2]
    rw [Finset.inter_eq_left.2 (fun t ht => hsub t ht)]
    exact div_self hcard
  · intro contexts answer h
    simp only [calculate_faithfulness]
    rw [if_pos]
    rcases h with h | h <;> simp [h]

/-- Witness for C2: the theorem applied to the contexts `["a"]` and answer
`"a"`, every token of which is in the contexts' vocabulary. -/
theorem faithfulness_matches_spec_witness : calculate_faithfulness ["a"] "a" = 1 :=
  faithfulness_matches_spec.2.1 ["a"] "a" (by simp) (by decide) (by decide)

/-!
## C7, C8, C10: visual grounding and cross-modal consistency
-/

/-- A left fold accumulating `f` over a list is the initial value plus the sum
of the mapped list. -/
lemma foldl_add_map {α : Type} (f : α → ℚ) (l : List α) (a : ℚ) :
    l.foldl (fun acc x => acc + f x) a = a + (l.map f).sum := by
  induction l generalizing a with
  | nil => simp
  | cons x xs ih => simp [ih, add_assoc]

/-- On a non-empty image list, `evaluate_visual_grounding` is the capped
normalised sum of the per-image contributions. -/
lemma visualGrounding_eq (answer : String) (images : List ImageDesc)
    (h : images ≠ []) :
    evaluate_visual_grounding answer images =
      min (((images.map (imageContribution answer)).sum) / (images.length : ℚ)) 1 := by
  simp only [evaluate_visual_grounding]
  rw [if_neg (by simp [h])]
  rw [foldl_add_map]
  rw [zero_add]

/-- Each image contributes between `0` and `3/2` to `visual_references`. -/
lemma imageContribution_bounds (answer : String) (img : ImageDesc) :
    0 ≤ imageContribution answer img ∧ imageContribution answer img ≤ 3/2 := by
  rcases img with ⟨p, et, cap⟩
  rcases et with _ | t
  · unfold imageContribution
    dsimp only
    split_ifs <;> norm_num
  · unfold imageContribution
    dsimp only
    split_ifs <;> norm_num

/-- A list all of whose entries are at least `1` has sum at least its length. -/
lemma length_le_sum_of_one_le (l : List ℚ) (h : ∀ x ∈ l, 1 ≤ x) :
    (l.length : ℚ) ≤ l.sum := by
  induction l with
  | nil => simp
  | cons x xs ih =>
    have hx := h x (List.mem_cons_self x xs)
    have hxs := ih (fun y hy => h y (List.mem_cons_of_mem x hy))
    simp only [List.length_cons, List.sum_cons]
    push_cast
    linarith

/-- C7 (amended): `visual_grounding` is `1.0` with no images; otherwise it is
the per-image contribution sum, normalised by the image count and capped at
`1.0`, where an image contributes `1` for a visual keyword occurring in the
answer plus `0.5` for an extracted-text overlap — up to `3/2` per image, not at
most `1` as the original claim stated. -/
theorem visual_grounding_amended :
    ∀ answer images,
      (images = [] → evaluate_visual_grounding answer images = 1) ∧
      (images ≠ [] →
        evaluate_visual_grounding answer images =
          min (((images.map (imageContribution answer)).sum) / (images.length : ℚ)) 1 ∧
        ∀ img ∈ images,
          0 ≤ imageContribution answer img ∧ imageContribution answer img ≤ 3/2) := by
  intro answer images
  constructor
  · intro h
    subst h
    rfl
  · intro h
    exact ⟨visualGrounding_eq answer images h, fun img _ => imageContribution_bounds answer img⟩

/-- Witness for C7: the amended theorem applied to the answer `"hi"` and a
single keyword-free image. -/
theorem visual_grounding_amended_witness :
    evaluate_visual_grounding "hi" [⟨none, none, none⟩] =
      min (((([⟨none, none, none⟩] : List ImageDesc).map (imageContribution "hi")).sum) /
        (([⟨none, none, none⟩] : List ImageDesc).length : ℚ)) 1 ∧
    ∀ img ∈ ([⟨none, none, none⟩] : List ImageDesc),
      0 ≤ imageContribution "hi" img ∧ imageContribution "hi" img ≤ 3/2 :=
  (visual_grounding_amended "hi" [⟨none, none, none⟩]).2 (by simp)

/-- Counterexample for C7: for the answer `"hello"` and one image whose
extracted text is `"hello"`, the code scores the overlap `0.5` (not `1.0` per
reflected image), so `visual_grounding` is `1/2` where the claim's
fraction-of-reflected-images reading gives `1`. -/
theorem visual_grounding_claim_counterexample :
    evaluate_visual_grounding "hello" [⟨none, some "hello", none⟩] = 1/2 ∧
    claimVisualGrounding "hello" [⟨none, some "hello", none⟩] = 1 := by
  have hc : imageContribution "hello" ⟨none, some "hello", none⟩ = 1/2 := by
    have hkw : answerHasVisualKeyword "hello" = false := by decide
    unfold imageContribution
    dsimp only
    rw [hkw]
    rw [if_neg (by decide : ¬(false = true))]
    rw [if_neg (by decide : ¬("hello" = ""))]
    rw [if_pos (by decide)]
    norm_num
  constructor
  · rw [visualGrounding_eq "hello" [⟨none, some "hello", none⟩] (by simp)]
    rw [List.map_singleton, hc]
    norm_num
  · have hrefl : claimImageReflected "hello" ⟨none, some "hello", none⟩ = true := by decide
    simp only [claimVisualGrounding]
    rw [if_neg (by decide)]
    rw [List.filter_singleton, hrefl]
    norm_num

/-- C10: with at least one retrieved image, an answer containing any of the
eight visual keywords (as a substring of its lower-cased text) makes
`visual_grounding` exactly `1`, independently of the images' contents. -/
theorem keyword_forces_full_visual_grounding :
    ∀ answer images, images ≠ [] → answerHasVisualKeyword answer = true →
      evaluate_visual_grounding answer images = 1 := by
  intro answer images h hkw
  rw [visualGrounding_eq answer images h]
  have hlen : (0 : ℚ) < (images.length : ℚ) := by
    have : 0 < images.length := List.length_pos.2 h
    exact_mod_cast this
  have hone : ∀ x ∈ images.map (imageContribution answer), (1 : ℚ) ≤ x := by
    intro x hx
    rcases List.mem_map.1 hx with ⟨img, _, rfl⟩
    have hb :
        imageContribution answer img =
          1 + (match img.extracted_text with
               | none => (0 : ℚ)
               | some t =>
                 if t = "" then 0
                 else if ((strTokens (lowerString t)).take 10).any
                     (fun w => strContains (lowerString answer) w) then 1/2 else 0) := by
      simp only [imageContribution, hkw]
      rfl
    rcases img with ⟨p, et, cap⟩
    rw [hb]
    rcases et with _ | t
    · norm_num
    · simp only []
      split_ifs <;> norm_num
  have hsum : (images.length : ℚ) ≤ (images.map (imageContribution answer)).sum := by
    have := length_le_sum_of_one_le (images.map (imageContribution answer)) hone
    rwa [List.length_map] at this
  have h1 : (1 : ℚ) ≤ (images.map (imageContribution answer)).sum / (images.length : ℚ) :=
    (one_le_div hlen).2 hsum
  exact min_eq_right h1

/-- Witness for C10: the theorem applied to the answer `"shown"` and one
contentless image. -/
theorem keyword_forces_full_visual_grounding_witness :
    evaluate_visual_grounding "shown" [⟨none, none, none⟩] = 1 :=
  keyword_forces_full_visual_grounding "shown" [⟨none, none, none⟩] (by simp) (by decide)

/-- The per-pair score of the code coincides with the claim's
`min(confidence * weight, 1)` with the relationship type defaulted to
`"other"`. -/
lemma pairConsistencyScore_eq_claim (p : CrossModalPair) :
    pairConsistencyScore p =
      claimPairScore (p.confidence.getD (1/2)) (p.relationship_type.getD "other") := by
  rcases p with ⟨rel, conf⟩
  rcases rel with _ | s
  · simp only [pairConsistencyScore, claimPairScore, Option.getD]
    rw [if_neg (by decide), if_neg (by decide), if_neg (by decide), if_neg (by decide)]
  · simp only [pairConsistencyScore, claimPairScore, Option.getD, Option.some.injEq]

/-- C8: `cross_modal_consistency` of the empty pair list is exactly `1`, and on
a non-empty pair list it is the mean over pairs of `min(confidence * w, 1)`
with `w = 1.2` for `caption`, `1.0` for `reference` and `0.8` otherwise
(a missing confidence defaults to `0.5`). -/
theorem cross_modal_consistency_weighted_mean :
    evaluate_cross_modal_consistency [] = 1 ∧
    ∀ pairs : List CrossModalPair, pairs ≠ [] →
      evaluate_cross_modal_consistency pairs =
        (pairs.map (fun p =>
          claimPairScore (p.confidence.getD (1/2)) (p.relationship_type.getD "other"))).sum /
          (pairs.length : ℚ) := by
  constructor
  · rfl
  · intro pairs h
    simp only [evaluate_cross_modal_consistency]
    rw [if_neg (by simp [h])]
    rw [if_neg (by simp [h])]
    simp only [listMean, List.length_map]
    congr 1
    congr 1
    exact List.map_congr_left (fun p _ => pairConsistencyScore_eq_claim p)

/-- Witness for C8: the theorem applied to a single `caption` pair with
confidence `1/2`. -/
theorem cross_modal_consistency_weighted_mean_witness :
    evaluate_cross_modal_consistency [⟨some "caption", some (1/2)⟩] =
      (([⟨some "caption", some (1/2)⟩] : List CrossModalPair).map (fun p =>
        claimPairScore (p.confidence.getD (1/2)) (p.relationship_type.getD "other"))).sum /
        (([⟨some "caption", some (1/2)⟩] : List CrossModalPair).length : ℚ) :=
  cross_modal_consistency_weighted_mean.2 [⟨some "caption", some (1/2)⟩] (by simp)

/-!
## C5: quality gates
-/

/-- Counterexample for C5: with the `TEST_CONFIG` thresholds and scores
`[0.6, 0.9, 0.9, 0.9]` (named as in `mock_ragas_scores`), the `faithfulness`
gate fails (`0.6 < 0.7`) yet the overall gate passes, because the code gates
the mean (`0.825 >= 0.75`) rather than requiring every per-metric gate to
pass. -/
theorem quality_gate_claim_counterexample :
    ragasMetricGate testConfigQualityThresholds "faithfulness" (3/5) = false ∧
    overallQualityGate testConfigQualityThresholds [3/5, 9/10, 9/10, 9/10] = some true := by
  constructor
  · simp only [ragasMetricGate, threshLookup]
    rw [decide_eq_false_iff_not]
    rw [show List.lookup ("ragas_" ++ "faithfulness") testConfigQualityThresholds
      = some (7/10) from rfl]
    simp only [Option.getD_some]
    norm_num
  · simp only [overallQualityGate]
    rw [show List.lookup "overall_quality" testConfigQualityThresholds = some (3/4) from rfl]
    simp only [Option.map_some', Option.some.injEq, decide_eq_true_eq]
    rw [listMean]
    norm_num

/-- C5 (amended): a per-metric gate passes iff the score is at least the
threshold looked up under `"ragas_" + name` with default `0.7`; the overall
gate passes iff the mean of the scores is at least the `overall_quality`
threshold (`0.75` in `TEST_CONFIG`), independently of the per-metric gates;
and in the spec's scenario a `basic_relevance` of `0.5` against a `0.9`
threshold fails its gate, and the overall gate on that single score fails as
well. -/
theorem quality_gate_amended :
    (∀ tbl name score, ragasMetricGate tbl name score = true ↔
      threshLookup tbl ("ragas_" ++ name) (7/10) ≤ score) ∧
    (∀ tbl scores t, List.lookup "overall_quality" tbl = some t →
      (overallQualityGate tbl scores = some true ↔ t ≤ listMean scores)) ∧
    ragasMetricGate [("ragas_basic_relevance", 9/10)] "basic_relevance" (1/2) = false ∧
    overallQualityGate testConfigQualityThresholds [1/2] = some false := by
  refine ⟨?_, ?_, ?_, ?_⟩
  · intro tbl name score
    simp only [ragasMetricGate, decide_eq_true_eq]
  · intro tbl scores t h
    simp only [overallQualityGate, h, Option.map_some', Option.some.injEq, decide_eq_true_eq]
  · simp only [ragasMetricGate, threshLookup]
    rw [decide_eq_false_iff_not]
    rw [show List.lookup ("ragas_" ++ "basic_relevance") [("ragas_basic_relevance", (9:ℚ)/10)]
      = some (9/10) from rfl]
    simp only [Option.getD_some]
    norm_num
  · simp only [overallQualityGate]
    rw [show List.lookup "overall_quality" testConfigQualityThresholds = some (3/4) from rfl]
    simp only [Option.map_some', Option.some.injEq]
    rw [decide_eq_false_iff_not]
    rw [listMean]
    norm_num

/-- Witness for C5: the amended theorem's overall-gate characterisation applied
to the `TEST_CONFIG` table and the score list `[4/5]`. -/
theorem quality_gate_amended_witness :
    overallQualityGate testConfigQualityThresholds [4/5] = some true ↔
      (3/4 : ℚ) ≤ listMean [4/5] :=
  quality_gate_amended.2.1 testConfigQualityThresholds [4/5] (3/4) rfl

/-!
## C6: system comparison
-/

/-- Folding `maxStep` from a present accumulator yields an element of the list
or the accumulator, at least as large (in absolute difference) as the
accumulator and every list element. -/
lemma foldl_maxStep_some (l : List (String × SystemComparison)) :
    ∀ b, ∃ e, l.foldl maxStep (some b) = some e ∧ (e = b ∨ e ∈ l) ∧
      |b.2.difference| ≤ |e.2.difference| ∧
      ∀ x ∈ l, |x.2.difference| ≤ |e.2.difference| := by
  induction l with
  | nil =>
    intro b
    exact ⟨b, rfl, Or.inl rfl, le_refl _, by simp⟩
  | cons x xs ih =>
    intro b
    simp only [List.foldl_cons]
    by_cases hlt : |b.2.difference| < |x.2.difference|
    · rw [show maxStep (some b) x = some x from by simp [maxStep, hlt]]
      obtain ⟨e, he, hmem, hge, hall⟩ := ih x
      refine ⟨e, he, ?_, le_trans (le_of_lt hlt) hge, ?_⟩
      · rcases hmem with h | h
        · exact Or.inr (h ▸ List.mem_cons_self x xs)
        · exact Or.inr (List.mem_cons_of_mem x h)
      · intro y hy
        rcases List.mem_cons.1 hy with h | h
        · exact h ▸ hge
        · exact hall y h
    · rw [show maxStep (some b) x = some b from by simp [maxStep, hlt]]
      obtain ⟨e, he, hmem, hge, hall⟩ := ih b
      refine ⟨e, he, ?_, hge, ?_⟩
      · rcases hmem with h | h
        · exact Or.inl h
        · exact Or.inr (List.mem_cons_of_mem x h)
      · intro y hy
        rcases List.mem_cons.1 hy with h | h
        · subst h
          exact le_trans (not_lt.1 hlt) hge
        · exact hall y h

/-- On a non-empty comparison table, `maxByAbsDiff` returns a member whose
absolute difference is maximal. -/
lemma maxByAbsDiff_spec (l : List (String × SystemComparison)) (h : l ≠ []) :
    ∃ e, maxByAbsDiff l = some e ∧ e ∈ l ∧
      ∀ x ∈ l, |x.2.difference| ≤ |e.2.difference| := by
  match l, h with
  | x :: xs, _ =>
    obtain ⟨e, he, hmem, hge, hall⟩ := foldl_maxStep_some xs x
    refine ⟨e, ?_, ?_, ?_⟩
    · simpa [maxByAbsDiff, maxStep] using he
    · rcases hmem with h | h
      · exact h ▸ List.mem_cons_self x xs
      · exact List.mem_cons_of_mem x h
    · intro y hy
      rcases List.mem_cons.1 hy with h | h
      · subst h
        exact hge
      · exact hall y h

/-- The winner string of a comparison record characterises the order of the two
scores, with ties mapped to exactly `"Tie"`. -/
lemma mkComparison_winner (a b : ℚ) :
    ((mkComparison a b).winner = "System B" ↔ a < b) ∧
    ((mkComparison a b).winner = "System A" ↔ b < a) ∧
    ((mkComparison a b).winner = "Tie" ↔ a = b) := by
  rcases lt_trichotomy a b with h | h | h
  · rw [show (mkComparison a b).winner = "System B" from by simp [mkComparison, h]]
    refine ⟨by simp [h], ?_, ?_⟩
    · simp only [show ("System B" = "System A") = False from by simp, false_iff]
      exact not_lt.2 (le_of_lt h)
    · simp only [show ("System B" = "Tie") = False from by simp, false_iff]
      exact ne_of_lt h
  · subst h
    rw [show (mkComparison a a).winner = "Tie" from by simp [mkComparison]]
    refine ⟨?_, ?_, by simp⟩
    · simp only [show ("Tie" = "System B") = False from by simp, false_iff]
      exact lt_irrefl a
    · simp only [show ("Tie" = "System A") = False from by simp, false_iff]
      exact lt_irrefl a
  · rw [show (mkComparison a b).winner = "System A" from by
      simp [mkComparison, h, not_lt.2 (le_of_lt h)]]
    refine ⟨?_, by simp [h], ?_⟩
    · simp only [show ("System A" = "System B") = False from by simp, false_iff]
      exact not_lt.2 (le_of_lt h)
    · simp only [show ("System A" = "Tie") = False from by simp, false_iff]
      exact (ne_of_gt h)

/-- C6: every metric entry of the comparison carries `difference = b - a` and a
winner that is `"System B"` exactly when `b > a`, `"System A"` exactly when
`a > b`, and exactly `"Tie"` on equality; and on a non-empty comparison the
overall winner is the winner field of an entry of maximal absolute
difference. -/
theorem compare_systems_matches_spec :
    (∀ l : List (String × ℚ × ℚ), ∀ x ∈ l,
      ∃ c : SystemComparison, (x.1, c) ∈ compare_rag_systems l ∧
        c.system_a = x.2.1 ∧ c.system_b = x.2.2 ∧ c.difference = x.2.2 - x.2.1 ∧
        (c.winner = "System B" ↔ x.2.1 < x.2.2) ∧
        (c.winner = "System A" ↔ x.2.2 < x.2.1) ∧
        (c.winner = "Tie" ↔ x.2.1 = x.2.2)) ∧
    (∀ l : List (String × ℚ × ℚ), l ≠ [] →
      ∃ e : String × SystemComparison, e ∈ compare_rag_systems l ∧
        overall_winner l = some e.2.winner ∧
        ∀ x ∈ compare_rag_systems l, |x.2.difference| ≤ |e.2.difference|) := by
  constructor
  · intro l x hx
    refine ⟨mkComparison x.2.1 x.2.2, ?_, rfl, rfl, rfl, ?_, ?_, ?_⟩
    · exact List.mem_map.2 ⟨x, hx, rfl⟩
    · exact (mkComparison_winner x.2.1 x.2.2).1
    · exact (mkComparison_winner x.2.1 x.2.2).2.1
    · exact (mkComparison_winner x.2.1 x.2.2).2.2
  · intro l h
    have hne : compare_rag_systems l ≠ [] := by
      simp only [compare_rag_systems]
      exact fun he => h (List.map_eq_nil_iff.1 he)
    obtain ⟨e, he, hmem, hall⟩ := maxByAbsDiff_spec (compare_rag_systems l) hne
    exact ⟨e, hmem, by simp [overall_winner, he], hall⟩

/-- Witness for C6: the theorem applied to the single-metric comparison
`[("m", 0, 1)]`, where System B wins. -/
theorem compare_systems_matches_spec_witness :
    (∃ c : SystemComparison, (("m" : String), c) ∈ compare_rag_systems [("m", 0, 1)] ∧
      c.system_a = 0 ∧ c.system_b = 1 ∧ c.difference = 1 - 0 ∧
      (c.winner = "System B" ↔ (0 : ℚ) < 1) ∧
      (c.winner = "System A" ↔ (1 : ℚ) < 0) ∧
      (c.winner = "Tie" ↔ (0 : ℚ) = 1)) ∧
    (∃ e : String × SystemComparison, e ∈ compare_rag_systems [("m", 0, 1)] ∧
      overall_winner [("m", 0, 1)] = some e.2.winner ∧
      ∀ x ∈ compare_rag_systems [("m", 0, 1)], |x.2.difference| ≤ |e.2.difference|) :=
  ⟨compare_systems_matches_spec.1 [("m", 0, 1)] ("m", 0, 1) (by simp),
   compare_systems_matches_spec.2 [("m", 0, 1)] (by simp)⟩

/-!
## C3: batch failure semantics
-/

/-- Unfolding of the batch loop: the entry at position `i` pairs index `n + i`
with the outcome of evaluating the `i`-th item. -/
lemma batchEvalGo_getElem {α β : Type} (ev : β → Except String α) (bs : List β) :
    ∀ n i, (batchEvalGo ev n bs)[i]? =
      (bs[i]?).map (fun b => (⟨n + i, ev b⟩ : BatchEntry α)) := by
  induction bs with
  | nil =>
    intro n i
    simp [batchEvalGo]
  | cons b bs ih =>
    intro n i
    cases i with
    | zero => simp [batchEvalGo]
    | succ j =>
      simp only [batchEvalGo, List.getElem?_cons_succ]
      rw [ih (n + 1) j]
      rcases bs[j]? with _ | x
      · rfl
      · simp only [Option.map_some']
        congr 2
        omega

/-- The batch loop preserves the item count. -/
lemma batchEvalGo_length {α β : Type} (ev : β → Except String α) (bs : List β) :
    ∀ n, (batchEvalGo ev n bs).length = bs.length := by
  induction bs with
  | nil => intro n; rfl
  | cons b bs ih =>
    intro n
    simp [batchEvalGo, ih]

/-- A comprehension over records one of which lacks the extracted field raises
the corresponding `KeyError`. -/
lemma extractAll_error {α : Type} (f : GTRecord → Option α) (err : String) :
    ∀ gt : List GTRecord, (∃ r ∈ gt, f r = none) →
      extractAll f err gt = Except.error err := by
  intro gt
  induction gt with
  | nil =>
    intro h
    simp at h
  | cons r rs ih =>
    intro h
    obtain ⟨r', hr', hnone⟩ := h
    rcases List.mem_cons.1 hr' with h | h
    · subst h
      simp only [extractAll, hnone]
    · simp only [extractAll]
      rcases hf : f r with _ | v
      · rfl
      · rw [ih ⟨r', h, hnone⟩]

/-- C3 (amended): the multimodal `/evaluate/batch` loop never raises — it
returns one entry per item, in order, holding that item's result or its
recorded error — whereas the RAGAS `/batch-evaluate` endpoint has no per-entry
isolation: whenever any ground-truth record lacks its `contexts` field, the
whole batch request fails with an error and no per-entry results. -/
theorem batch_failure_isolation_amended :
    (∀ (α β : Type) (ev : β → Except String α) (items : List β),
      (batch_evaluate ev items).length = items.length ∧
      ∀ i : ℕ, (batch_evaluate ev items)[i]? =
        (items[i]?).map (fun b => (⟨i, ev b⟩ : BatchEntry α))) ∧
    (∀ (α : Type)
      (tail : List String → List (List String) → List String → List String → Except String α)
      (gt : List GTRecord), (∃ r ∈ gt, r.contexts = none) →
      ∃ msg, batch_evaluate_ground_truth tail gt = Except.error msg) := by
  constructor
  · intro α β ev items
    refine ⟨batchEvalGo_length ev items 0, ?_⟩
    intro i
    have := batchEvalGo_getElem ev items 0 i
    simpa [batch_evaluate] using this
  · intro α tail gt hex
    obtain ⟨r, hr, hnone⟩ := hex
    have hne : gt ≠ [] := by
      intro h
      subst h
      exact absurd hr (List.not_mem_nil r)
    have hc : extractAll (fun r => r.contexts) "KeyError: contexts" gt =
        Except.error "KeyError: contexts" := extractAll_error _ _ gt ⟨r, hr, hnone⟩
    simp only [batch_evaluate_ground_truth]
    rw [if_neg (by simp [hne])]
    cases hq : extractAll (fun r => r.question) "KeyError: question" gt with
    | error e => exact ⟨"Batch evaluation failed: " ++ e, rfl⟩
    | ok qs =>
      rw [hc]
      exact ⟨"Batch evaluation failed: " ++ "KeyError: contexts", rfl⟩

/-- Witness for C3: the amended theorem's second half applied to a concrete
two-record dataset whose second record lacks `contexts`. -/
theorem batch_failure_isolation_amended_witness :
    ∃ msg, batch_evaluate_ground_truth (fun _ _ _ _ => Except.ok ())
      [⟨some "q1", some ["c1"], some "a1", some "g1"⟩,
       ⟨some "q2", none, some "a2", some "g2"⟩] = Except.error msg :=
  batch_failure_isolation_amended.2 Unit (fun _ _ _ _ => Except.ok ())
    [⟨some "q1", some ["c1"], some "a1", some "g1"⟩,
     ⟨some "q2", none, some "a2", some "g2"⟩]
    ⟨⟨some "q2", none, some "a2", some "g2"⟩,
     List.mem_cons_of_mem _ (List.mem_cons_self _ _), rfl⟩

/-- Counterexample for C3: a three-record batch whose second record lacks the
`contexts` key makes `batch_evaluate_ground_truth` fail as a whole with the
wrapped `KeyError` — no per-entry error record and no results for the two
well-formed entries — contradicting the claim that both batch evaluators
record a per-entry error and complete. -/
theorem batch_ground_truth_counterexample :
    batch_evaluate_ground_truth (fun _ _ _ _ => Except.ok ())
      [⟨some "q1", some ["c1"], some "a1", some "g1"⟩,
       ⟨some "q2", none, some "a2", some "g2"⟩,
       ⟨some "q3", some ["c3"], some "a3", some "g3"⟩] =
      Except.error "Batch evaluation failed: KeyError: contexts" := rfl

/-!
## C9: cosine similarity
-/

/-- The dot product of a vector with itself is a sum of squares. -/
lemma dotL_self_nonneg (v : List ℝ) : 0 ≤ dotL v v := by
  induction v with
  | nil => simp [dotL]
  | cons x xs ih =>
    simp only [dotL, List.zipWith_cons_cons, List.sum_cons] at ih ⊢
    nlinarith [sq_nonneg x]

/-- Cauchy-Schwarz for list dot products. -/
lemma dotL_sq_le (v : List ℝ) : ∀ w : List ℝ, (dotL v w)^2 ≤ dotL v v * dotL w w := by
  induction v with
  | nil => intro w; simp [dotL]
  | cons x xs ih =>
    intro w
    cases w with
    | nil => simp [dotL]
    | cons y ys =>
      have h1 := ih ys
      have h2 := dotL_self_nonneg xs
      have h3 := dotL_self_nonneg ys
      simp only [dotL, List.zipWith_cons_cons, List.sum_cons] at h1 h2 h3 ⊢
      by_cases hB : (List.zipWith (fun a b => a * b) ys ys).sum = 0
      · have hS : (List.zipWith (fun a b => a * b) xs ys).sum = 0 := by
          have h4 := h1
          rw [hB] at h4
          nlinarith [sq_nonneg ((List.zipWith (fun a b => a * b) xs ys).sum)]
        rw [hB, hS]
        nlinarith [mul_nonneg h2 (sq_nonneg y)]
      · have hBpos : 0 < (List.zipWith (fun a b => a * b) ys ys).sum :=
          lt_of_le_of_ne h3 (Ne.symm hB)
        nlinarith [sq_nonneg (x * (List.zipWith (fun a b => a * b) ys ys).sum -
            y * (List.zipWith (fun a b => a * b) xs ys).sum),
          mul_nonneg (sq_nonneg y) (sub_nonneg.2 h1),
          mul_nonneg (le_of_lt hBpos) (sub_nonneg.2 h1)]

/-- Counterexample for C9: on the zero vectors `[0]` and `[0]`, the division
`0.0/0.0` yields `NaN` (modelled `none`), not a float in `[-1, 1]` — the
computation is not total in the claimed sense. -/
theorem cosine_similarity_nan_on_zero_vector :
    cosine_similarity [(0 : ℝ)] [0] = none := by
  have hn : normL [(0 : ℝ)] = 0 := by
    simp [normL, dotL]
  simp [cosine_similarity, hn]

/-- C9 (amended): for equal-length vectors whose norms are both nonzero,
`cosine_similarity` returns a value and it lies in `[-1, 1]`; a zero vector
instead produces `NaN` and a length mismatch raises. -/
theorem cosine_similarity_amended :
    ∀ v w : List ℝ, v.length = w.length → normL v * normL w ≠ 0 →
      ∃ x, cosine_similarity v w = some x ∧ -1 ≤ x ∧ x ≤ 1 := by
  intro v w hlen hnz
  have habs : |dotL v w| ≤ normL v * normL w := by
    have h1 : (dotL v w)^2 ≤ dotL v v * dotL w w := dotL_sq_le v w
    have h2 : |dotL v w| = Real.sqrt ((dotL v w)^2) := (Real.sqrt_sq_eq_abs _).symm
    rw [h2, normL, normL, ← Real.sqrt_mul (dotL_self_nonneg v)]
    exact Real.sqrt_le_sqrt h1
  have hpos : 0 < normL v * normL w :=
    lt_of_le_of_ne (mul_nonneg (Real.sqrt_nonneg _) (Real.sqrt_nonneg _)) (Ne.symm hnz)
  have hb : |dotL v w / (normL v * normL w)| ≤ 1 := by
    rw [abs_div, abs_of_pos hpos]
    exact (div_le_one hpos).2 habs
  refine ⟨dotL v w / (normL v * normL w), ?_, (abs_le.1 hb).1, (abs_le.1 hb).2⟩
  simp only [cosine_similarity]
  rw [if_neg (by simp [hlen]), if_neg hnz]

/-- Witness for C9: the amended theorem applied to the unit vectors `[1]` and
`[1]`. -/
theorem cosine_similarity_amended_witness :
    ∃ x, cosine_similarity [(1 : ℝ)] [1] = some x ∧ -1 ≤ x ∧ x ≤ 1 :=
  cosine_similarity_amended [1] [1] rfl (by
    have h : normL [(1 : ℝ)] = 1 := by simp [normL, dotL]
    rw [h]
    norm_num)

/-!
## C4: neutral default on provider failure, and the endpoint result model
-/

/-- C4: whenever every embedding-provider call fails (the query call raises or
returns non-200, and likewise every image call), `evaluate_image_relevance`
returns the neutral default `0.5` rather than raising; but the
`/evaluate/multimodal` endpoint itself fails on every request, because its
first statement constructs the result model without the five required metric
fields. -/
theorem image_relevance_neutral_default :
    (∀ (queryOut : EmbedOutcome) (imgOut : String → EmbedOutcome) (images : List ImageDesc),
      images ≠ [] → embedCallFails queryOut → (∀ p, embedCallFails (imgOut p)) →
      evaluate_image_relevance queryOut imgOut images = some (1/2)) ∧
    (∀ (ext : MMExternals) (req : MMRequest),
      evaluate_multimodal_response ext req =
        Except.error ("Multimodal evaluation failed: " ++
          "validation error: missing required metric fields")) := by
  constructor
  · intro queryOut imgOut images hne hq _hi
    simp only [evaluate_image_relevance]
    rw [if_neg (by simp [hne])]
    cases queryOut with
    | raised => rfl
    | resp st qemb =>
      dsimp only
      rw [if_pos (show st ≠ 200 from hq)]
  · intro ext req
    rfl

/-- Witness for C4: the theorem applied to one image and a provider whose
calls all raise. -/
theorem image_relevance_neutral_default_witness :
    evaluate_image_relevance EmbedOutcome.raised (fun _ => EmbedOutcome.raised)
      [⟨some "img.png", none, none⟩] = some (1/2) :=
  image_relevance_neutral_default.1 EmbedOutcome.raised (fun _ => EmbedOutcome.raised)
    [⟨some "img.png", none, none⟩] (by simp) trivial (fun _ => trivial)

end RagEval
